import Mathlib

/-!
Shallow embedding of `src/KerberosWinRMClient.ts` (Kerberos-WinRM-Client).

The client exposes four shell operations (`createShell`, `executeCommand`,
`receiveOutput`, `deleteShell`), builds SOAP envelopes, sends them through a
401/Negotiate challenge loop (`sendWinRMRequest`), and parses the XML
responses with xml2js into JavaScript objects that the extractors
(`extractShellId`, `extractCommandId`, `extractCommandOutput`) navigate.

Modelling choices:
- xml2js parse results are JavaScript values: modelled by `JsVal`
  (strings, arrays, objects, `undefined`).  A thrown `TypeError` from a
  property access on `undefined` is `Except.error ()`; a `try/catch`
  around an access chain is the `match` on the resulting `Except`.
- The HTTP layer is a script `server : Nat → HttpResponse` giving the
  response to the n-th request of one logical SOAP exchange, and the
  recursive 401 retry loop runs on explicit fuel: `pending` means the
  loop was still running when the fuel ran out (the real code has no
  retry cap, so no finite fuel suffices against an always-401 server).
- The Kerberos library is a function `kstep : String → String` from a
  challenge to the next token, plus the outcome of the initial step.
- Node `Buffer.from(s, 'base64').toString('utf8')` is `b64ToText`:
  base64 (non-alphabet characters skipped, as Node does) to bytes, then
  UTF-8 decoding with U+FFFD for invalid sequences.
-/

/-- A JavaScript value as produced by xml2js `parseString`. -/
inductive JsVal : Type where
  | str (s : String)
  | arr (xs : List JsVal)
  | obj (fields : List (String × JsVal))
  | undef

/-- JavaScript truthiness of a value (`undefined` and `''` are falsy). -/
def truthyV : JsVal → Bool
  | JsVal.undef => false
  | JsVal.str s => !s.isEmpty
  | JsVal.arr _ => true
  | JsVal.obj _ => true

/-- Truthiness of an extractor result: `none` models the `null` returned
from the `catch` branch, which is falsy. -/
def truthy : Option JsVal → Bool
  | none => false
  | some v => truthyV v

/-- Property access `v[k]` on a value already known not to be `undefined`:
objects look the key up (missing keys give `undefined`), strings and
arrays have none of the element-name properties used by the extractors. -/
def jsProp : JsVal → String → JsVal
  | JsVal.obj fields, k => (fields.lookup k).getD JsVal.undef
  | _, _ => JsVal.undef

/-- Property access `v[k]`: accessing a property of `undefined` throws a
`TypeError` (`Except.error ()`); otherwise it is `jsProp`. -/
def jsGet : JsVal → String → Except Unit JsVal
  | JsVal.undef, _ => Except.error ()
  | v, k => Except.ok (jsProp v k)

/-- Index access `v[i]` on a value already known not to be `undefined`. -/
def jsIdxV : JsVal → Nat → JsVal
  | JsVal.arr xs, i => (xs.get? i).getD JsVal.undef
  | JsVal.str s, i =>
      match s.data.get? i with
      | some c => JsVal.str (String.mk [c])
      | none => JsVal.undef
  | _, _ => JsVal.undef

/-- Index access `v[i]`: indexing `undefined` throws. -/
def jsIdx : JsVal → Nat → Except Unit JsVal
  | JsVal.undef, _ => Except.error ()
  | v, i => Except.ok (jsIdxV v i)

/-- Value of a base64 alphabet character, `none` for padding and anything
outside the alphabet. -/
def b64Index (c : Char) : Option Nat :=
  if 65 ≤ c.toNat ∧ c.toNat ≤ 90 then some (c.toNat - 65)
  else if 97 ≤ c.toNat ∧ c.toNat ≤ 122 then some (c.toNat - 97 + 26)
  else if 48 ≤ c.toNat ∧ c.toNat ≤ 57 then some (c.toNat - 48 + 52)
  else if c = Char.ofNat 43 then some 62
  else if c = Char.ofNat 47 then some 63
  else none

/-- Reassemble bytes from a list of base64 sextets (Node semantics: a
dangling group of 2 or 3 sextets still yields 1 or 2 bytes). -/
def b64Bytes : List Nat → List Nat
  | a :: b :: c :: d :: rest =>
      (a * 4 + b / 16) :: ((b % 16) * 16 + c / 4) :: ((c % 4) * 64 + d) :: b64Bytes rest
  | [a, b, c] => [a * 4 + b / 16, (b % 16) * 16 + c / 4]
  | [a, b] => [a * 4 + b / 16]
  | _ => []

/-- `Buffer.from(s, 'base64')`: non-alphabet characters (including `=`
padding) are skipped, then sextets are packed into bytes. -/
def b64Decode (s : String) : List Nat :=
  b64Bytes (s.data.filterMap b64Index)

/-- Is `b` a UTF-8 continuation byte (`10xxxxxx`)? -/
def isCont (b : Nat) : Bool := 128 ≤ b ∧ b < 192

/-- The U+FFFD replacement character emitted for invalid UTF-8 input. -/
def replChar : Char := Char.ofNat 0xFFFD

/-- UTF-8 decoding of a byte list, one scalar per valid sequence and a
replacement character for each invalid lead or truncated sequence
(`Buffer.prototype.toString('utf8')`).  The recursion is driven by a
step budget so the definition is structural and computes by reduction;
every step consumes at least one byte, so a budget of the list's length
never runs out. -/
def utf8DecodeAux : Nat → List Nat → List Char
  | 0, _ => []
  | _ + 1, [] => []
  | f + 1, b :: rest =>
    if b < 128 then Char.ofNat b :: utf8DecodeAux f rest
    else if 192 ≤ b ∧ b < 224 then
      match rest with
      | b2 :: rest2 =>
          if isCont b2 then Char.ofNat ((b - 192) * 64 + (b2 - 128)) :: utf8DecodeAux f rest2
          else replChar :: utf8DecodeAux f (b2 :: rest2)
      | [] => [replChar]
    else if 224 ≤ b ∧ b < 240 then
      match rest with
      | b2 :: b3 :: rest3 =>
          if isCont b2 ∧ isCont b3 then
            Char.ofNat ((b - 224) * 4096 + (b2 - 128) * 64 + (b3 - 128)) :: utf8DecodeAux f rest3
          else replChar :: utf8DecodeAux f (b2 :: b3 :: rest3)
      | [b2] => if isCont b2 then [replChar] else replChar :: utf8DecodeAux f [b2]
      | [] => [replChar]
    else if 240 ≤ b ∧ b < 248 then
      match rest with
      | b2 :: b3 :: b4 :: rest4 =>
          if isCont b2 ∧ isCont b3 ∧ isCont b4 then
            Char.ofNat ((b - 240) * 262144 + (b2 - 128) * 4096 + (b3 - 128) * 64 + (b4 - 128))
              :: utf8DecodeAux f rest4
          else replChar :: utf8DecodeAux f (b2 :: b3 :: b4 :: rest4)
      | [b2, b3] =>
          if isCont b2 ∧ isCont b3 then [replChar] else replChar :: utf8DecodeAux f [b2, b3]
      | [b2] => if isCont b2 then [replChar] else replChar :: utf8DecodeAux f [b2]
      | [] => [replChar]
    else replChar :: utf8DecodeAux f rest

/-- UTF-8 decoding of a byte list. -/
def utf8Decode (l : List Nat) : List Char := utf8DecodeAux l.length l

/-- `Buffer.from(s, 'base64').toString('utf8')`. -/
def b64ToText (s : String) : String := String.mk (utf8Decode (b64Decode s))

/-- JavaScript whitespace as far as `String.prototype.trim` is concerned
(the characters that can actually occur in WinRM stream payloads). -/
def isJsWs (c : Char) : Bool :=
  c = Char.ofNat 32 ∨ c = Char.ofNat 9 ∨ c = Char.ofNat 10 ∨ c = Char.ofNat 13 ∨
  c = Char.ofNat 11 ∨ c = Char.ofNat 12 ∨ c = Char.ofNat 0xA0 ∨ c = Char.ofNat 0xFEFF

/-- `s.trim()`: removes leading and trailing whitespace. -/
def jsTrim (s : String) : String :=
  String.mk (((s.data.dropWhile isJsWs).reverse.dropWhile isJsWs).reverse)

/-- Removal of only trailing whitespace.  Modelled from the spec: the
spec describes the Receive output as the concatenated decoded streams
"with trailing whitespace trimmed"; this is that description, to be
compared with what the code (`jsTrim`, i.e. `.trim()`) actually does. -/
def trimEndOnly (s : String) : String :=
  String.mk ((s.data.reverse.dropWhile isJsWs).reverse)

/-- `extractShellId`, from the source: the access chain
`response['s:Envelope']['s:Body'][0]['rsp:Shell'][0]['rsp:ShellId'][0]`
inside `try/catch`, `null` (here `none`) on a thrown access. -/
def extractShellId (response : JsVal) : Option JsVal :=
  match (do
    let a ← jsGet response "s:Envelope"
    let b ← jsGet a "s:Body"
    let c ← jsIdx b 0
    let d ← jsGet c "rsp:Shell"
    let e ← jsIdx d 0
    let f ← jsGet e "rsp:ShellId"
    jsIdx f 0) with
  | Except.ok v => some v
  | Except.error _ => none

/-- `extractCommandId`, from the source: the analogous chain through
`rsp:CommandResponse` and `rsp:CommandId`. -/
def extractCommandId (response : JsVal) : Option JsVal :=
  match (do
    let a ← jsGet response "s:Envelope"
    let b ← jsGet a "s:Body"
    let c ← jsIdx b 0
    let d ← jsGet c "rsp:CommandResponse"
    let e ← jsIdx d 0
    let f ← jsGet e "rsp:CommandId"
    jsIdx f 0) with
  | Except.ok v => some v
  | Except.error _ => none

/-- The `streams || []` coercion: `undefined` becomes the empty list, an
array iterates its elements, a (truthy) string iterates its characters,
and `for..of` over an object throws (non-iterable). -/
def streamsOf : JsVal → Except Unit (List JsVal)
  | JsVal.arr xs => Except.ok xs
  | JsVal.undef => Except.ok []
  | JsVal.str s =>
      if s.isEmpty then Except.ok []
      else Except.ok (s.data.map (fun c => JsVal.str (String.mk [c])))
  | JsVal.obj _ => Except.error ()

/-- One loop iteration of `extractCommandOutput`: `if (stream && stream['_'])`
then base64-decode `stream['_']`.  `Buffer.from` on a truthy non-string
argument of object shape throws; xml2js text nodes are always strings so
that branch is unreachable on parser output. -/
def streamText (stream : JsVal) : Except Unit (Option String) :=
  if truthyV stream then
    match jsProp stream "_" with
    | JsVal.str s => if s.isEmpty then Except.ok none else Except.ok (some s)
    | JsVal.undef => Except.ok none
    | _ => Except.error ()
  else Except.ok none

/-- The `for (const stream of streams)` accumulation loop. -/
def collectStreams : List JsVal → String → Except Unit String
  | [], acc => Except.ok acc
  | s :: rest, acc =>
      match streamText s with
      | Except.error e => Except.error e
      | Except.ok none => collectStreams rest acc
      | Except.ok (some t) => collectStreams rest (acc ++ b64ToText t)

/-- `extractCommandOutput`, from the source: navigate to
`rsp:ReceiveResponse[0]['rsp:Stream'] || []`, base64-decode and
concatenate each stream text, `.trim()` the result; any thrown access is
caught and yields `''`. -/
def extractCommandOutput (response : JsVal) : String :=
  match (do
    let a ← jsGet response "s:Envelope"
    let b ← jsGet a "s:Body"
    let c ← jsIdx b 0
    let d ← jsGet c "rsp:ReceiveResponse"
    let e ← jsIdx d 0
    let sv ← jsGet e "rsp:Stream"
    let streams ← streamsOf sv
    collectStreams streams "") with
  | Except.ok out => jsTrim out
  | Except.error _ => ""

/-! XML escaping.  The source escapes with five chained global
single-character replacements: `&`, `<`, `>`, `"`, then the apostrophe. -/

/-- The ampersand character. -/
def ampC : Char := Char.ofNat 38

/-- The less-than character. -/
def ltC : Char := Char.ofNat 60

/-- The greater-than character. -/
def gtC : Char := Char.ofNat 62

/-- The double-quote character. -/
def quotC : Char := Char.ofNat 34

/-- The apostrophe character. -/
def aposC : Char := Char.ofNat 39

/-- The ampersand entity after its opening `&`. -/
def ampTailE : List Char := [Char.ofNat 97, Char.ofNat 109, Char.ofNat 112, Char.ofNat 59]

/-- The less-than entity after its opening `&`. -/
def ltTailE : List Char := [Char.ofNat 108, Char.ofNat 116, Char.ofNat 59]

/-- The greater-than entity after its opening `&`. -/
def gtTailE : List Char := [Char.ofNat 103, Char.ofNat 116, Char.ofNat 59]

/-- The double-quote entity after its opening `&`. -/
def quotTailE : List Char :=
  [Char.ofNat 113, Char.ofNat 117, Char.ofNat 111, Char.ofNat 116, Char.ofNat 59]

/-- The apostrophe entity after its opening `&`. -/
def aposTailE : List Char :=
  [Char.ofNat 97, Char.ofNat 112, Char.ofNat 111, Char.ofNat 115, Char.ofNat 59]

/-- Characters of the entity replacing the ampersand. -/
def ampEnt : List Char := ampC :: ampTailE

/-- Characters of the entity replacing the less-than sign. -/
def ltEnt : List Char := ampC :: ltTailE

/-- Characters of the entity replacing the greater-than sign. -/
def gtEnt : List Char := ampC :: gtTailE

/-- Characters of the entity replacing the double quote. -/
def quotEnt : List Char := ampC :: quotTailE

/-- Characters of the entity replacing the apostrophe. -/
def aposEnt : List Char := ampC :: aposTailE

/-- `s.replace(/c/g, rep)` for a single-character pattern `c`. -/
def replaceChar (c : Char) (rep : List Char) : List Char → List Char
  | [] => []
  | x :: xs => (if x = c then rep else [x]) ++ replaceChar c rep xs

/-- `escapeXml`, from the source: the five chained replacements, in the
source's order. -/
def escapeXmlL (s : List Char) : List Char :=
  replaceChar aposC aposEnt
    (replaceChar quotC quotEnt
      (replaceChar gtC gtEnt
        (replaceChar ltC ltEnt
          (replaceChar ampC ampEnt s))))

/-- `escapeXml` on strings. -/
def escapeXml (s : String) : String := String.mk (escapeXmlL s.data)

/-- What one character becomes under the chained replacements. -/
def escChar (c : Char) : List Char :=
  if c = ampC then ampEnt
  else if c = ltC then ltEnt
  else if c = gtC then gtEnt
  else if c = quotC then quotEnt
  else if c = aposC then aposEnt
  else [c]

/-- XML entity decoding of the five predefined entities.  Modelled from
the spec: "re-parsing the escaped form yields `c` unchanged" — this is
the XML parser's entity decoding, which the repository delegates to
xml2js, stated here so the round trip can be checked. -/
def unescapeXmlL : List Char → List Char
  | [] => []
  | x :: xs =>
    if x = ampC then
      if ampTailE.isPrefixOf xs then ampC :: unescapeXmlL (xs.drop 4)
      else if ltTailE.isPrefixOf xs then ltC :: unescapeXmlL (xs.drop 3)
      else if gtTailE.isPrefixOf xs then gtC :: unescapeXmlL (xs.drop 3)
      else if quotTailE.isPrefixOf xs then quotC :: unescapeXmlL (xs.drop 5)
      else if aposTailE.isPrefixOf xs then aposC :: unescapeXmlL (xs.drop 5)
      else ampC :: unescapeXmlL xs
    else x :: unescapeXmlL xs
termination_by l => l.length
decreasing_by all_goals simp [List.length_drop] <;> omega

/-- Entity decoding on strings. -/
def unescapeXml (s : String) : String := String.mk (unescapeXmlL s.data)

/-- A character list is well escaped when it contains no raw `<`, `>`,
`"` or apostrophe, and every ampersand opens one of the five predefined
entities. -/
def wellEscaped : List Char → Bool
  | [] => true
  | x :: xs =>
    if x = ltC ∨ x = gtC ∨ x = quotC ∨ x = aposC then false
    else if x = ampC then
      if ampTailE.isPrefixOf xs then wellEscaped (xs.drop 4)
      else if ltTailE.isPrefixOf xs then wellEscaped (xs.drop 3)
      else if gtTailE.isPrefixOf xs then wellEscaped (xs.drop 3)
      else if quotTailE.isPrefixOf xs then wellEscaped (xs.drop 5)
      else if aposTailE.isPrefixOf xs then wellEscaped (xs.drop 5)
      else false
    else wellEscaped xs
termination_by l => l.length
decreasing_by all_goals simp [List.length_drop] <;> omega

/-! Configuration, SOAP envelope builders, transport/negotiation loop. -/

/-- Construction-time options of `KerberosWinRMClient` (defaults already
applied by the constructor). -/
structure ClientConfig where
  host : String
  port : Nat
  spn : String
  useSSL : Bool
  path : String
  timeout : Nat

/-- The `To` address: derived from the TLS flag, host, port and path, as
in every envelope template. -/
def toAddr (cfg : ClientConfig) : String :=
  (if cfg.useSSL then "https" else "http") ++ "://" ++ cfg.host ++ ":" ++
    toString cfg.port ++ cfg.path

/-- `buildCreateShellEnvelope`, from the source.  The random
`generateUuid()` value is passed in as `uuid`. -/
def buildCreateShellEnvelope (cfg : ClientConfig) (uuid : String) : String :=
  "<?xml version=\"1.0\" encoding=\"UTF-8\"?>\n<s:Envelope xmlns:s=\"http://www.w3.org/2003/05/soap-envelope\"\n            xmlns:wsa=\"http://schemas.xmlsoap.org/ws/2004/08/addressing\"\n            xmlns:wsman=\"http://schemas.dmtf.org/wbem/wsman/1/wsman.xsd\"\n            xmlns:ws=\"http://schemas.microsoft.com/wbem/wsman/1/windows/shell\">\n  <s:Header>\n    <wsa:Action>http://schemas.microsoft.com/wbem/wsman/1/windows/shell/Create</wsa:Action>\n    <wsa:To>" ++
  toAddr cfg ++
  "</wsa:To>\n    <wsa:MessageID>urn:uuid:" ++ uuid ++
  "</wsa:MessageID>\n    <wsman:ResourceURI s:mustUnderstand=\"true\">http://schemas.microsoft.com/wbem/wsman/1/windows/shell/cmd</wsman:ResourceURI>\n    <wsa:ReplyTo>\n      <wsa:Address s:mustUnderstand=\"true\">http://schemas.xmlsoap.org/ws/2004/08/addressing/role/anonymous</wsa:Address>\n    </wsa:ReplyTo>\n    <wsman:OperationTimeout>PT60S</wsman:OperationTimeout>\n  </s:Header>\n  <s:Body>\n    <ws:Shell>\n      <ws:InputStreams>stdin</ws:InputStreams>\n      <ws:OutputStreams>stdout stderr</ws:OutputStreams>\n    </ws:Shell>\n  </s:Body>\n</s:Envelope>"

/-- Everything of the ExecuteCommand envelope before the escaped command
text (`buildExecuteCommandEnvelope` up to `<ws:Command>`). -/
def execEnvelopeHead (cfg : ClientConfig) (uuid shellId : String) : String :=
  "<?xml version=\"1.0\"?>\n<s:Envelope xmlns:s=\"http://www.w3.org/2003/05/soap-envelope\"\n            xmlns:wsa=\"http://schemas.xmlsoap.org/ws/2004/08/addressing\"\n            xmlns:wsman=\"http://schemas.dmtf.org/wbem/wsman/1/wsman.xsd\"\n            xmlns:ws=\"http://schemas.microsoft.com/wbem/wsman/1/windows/shell\">\n  <s:Header>\n    <wsa:Action>http://schemas.microsoft.com/wbem/wsman/1/windows/shell/Command</wsa:Action>\n    <wsa:To>" ++
  toAddr cfg ++
  "</wsa:To>\n    <wsa:MessageID>urn:uuid:" ++ uuid ++
  "</wsa:MessageID>\n    <wsa:ReplyTo>\n      <wsa:Address>http://schemas.xmlsoap.org/ws/2004/08/addressing/role/anonymous</wsa:Address>\n    </wsa:ReplyTo>\n    <wsman:ResourceURI>http://schemas.microsoft.com/wbem/wsman/1/windows/shell/cmd</wsman:ResourceURI>\n    <wsman:OperationTimeout>PT60S</wsman:OperationTimeout>\n    <wsman:SelectorSet>\n      <wsman:Selector Name=\"ShellId\">" ++
  shellId ++
  "</wsman:Selector>\n    </wsman:SelectorSet>\n  </s:Header>\n  <s:Body>\n    <ws:CommandLine>\n      <ws:Command>"

/-- Everything of the ExecuteCommand envelope after the escaped command
text. -/
def execEnvelopeTail : String :=
  "</ws:Command>\n    </ws:CommandLine>\n  </s:Body>\n</s:Envelope>"

/-- `buildExecuteCommandEnvelope`, from the source: the command text is
embedded through `escapeXml`. -/
def buildExecuteCommandEnvelope (cfg : ClientConfig) (uuid shellId command : String) : String :=
  execEnvelopeHead cfg uuid shellId ++ escapeXml command ++ execEnvelopeTail

/-- `buildReceiveEnvelope`, from the source. -/
def buildReceiveEnvelope (cfg : ClientConfig) (uuid shellId commandId : String) : String :=
  "<?xml version=\"1.0\"?>\n<s:Envelope xmlns:s=\"http://www.w3.org/2003/05/soap-envelope\"\n            xmlns:wsa=\"http://schemas.xmlsoap.org/ws/2004/08/addressing\"\n            xmlns:wsman=\"http://schemas.dmtf.org/wbem/wsman/1/wsman.xsd\"\n            xmlns:ws=\"http://schemas.microsoft.com/wbem/wsman/1/windows/shell\">\n  <s:Header>\n    <wsa:Action>http://schemas.microsoft.com/wbem/wsman/1/windows/shell/Receive</wsa:Action>\n    <wsa:To>" ++
  toAddr cfg ++
  "</wsa:To>\n    <wsa:MessageID>urn:uuid:" ++ uuid ++
  "</wsa:MessageID>\n    <wsa:ReplyTo>\n      <wsa:Address>http://schemas.xmlsoap.org/ws/2004/08/addressing/role/anonymous</wsa:Address>\n    </wsa:ReplyTo>\n    <wsman:ResourceURI>http://schemas.microsoft.com/wbem/wsman/1/windows/shell/cmd</wsman:ResourceURI>\n    <wsman:OperationTimeout>PT60S</wsman:OperationTimeout>\n    <wsman:SelectorSet>\n      <wsman:Selector Name=\"ShellId\">" ++
  shellId ++
  "</wsman:Selector>\n    </wsman:SelectorSet>\n  </s:Header>\n  <s:Body>\n    <ws:Receive>\n      <ws:DesiredStream>stdout stderr</ws:DesiredStream>\n      <ws:DesiredStream CommandId=\"" ++
  commandId ++
  "\">stdout stderr</ws:DesiredStream>\n    </ws:Receive>\n  </s:Body>\n</s:Envelope>"

/-- `buildDeleteShellEnvelope`, from the source. -/
def buildDeleteShellEnvelope (cfg : ClientConfig) (uuid shellId : String) : String :=
  "<?xml version=\"1.0\"?>\n<s:Envelope xmlns:s=\"http://www.w3.org/2003/05/soap-envelope\"\n            xmlns:wsa=\"http://schemas.xmlsoap.org/ws/2004/08/addressing\"\n            xmlns:wsman=\"http://schemas.dmtf.org/wbem/wsman/1/wsman.xsd\"\n            xmlns:ws=\"http://schemas.microsoft.com/wbem/wsman/1/windows/shell\">\n  <s:Header>\n    <wsa:Action>http://schemas.microsoft.com/wbem/wsman/1/windows/shell/Delete</wsa:Action>\n    <wsa:To>" ++
  toAddr cfg ++
  "</wsa:To>\n    <wsa:MessageID>urn:uuid:" ++ uuid ++
  "</wsa:MessageID>\n    <wsa:ReplyTo>\n      <wsa:Address>http://schemas.xmlsoap.org/ws/2004/08/addressing/role/anonymous</wsa:Address>\n    </wsa:ReplyTo>\n    <wsman:ResourceURI>http://schemas.microsoft.com/wbem/wsman/1/windows/shell/cmd</wsman:ResourceURI>\n    <wsman:OperationTimeout>PT60S</wsman:OperationTimeout>\n    <wsman:SelectorSet>\n      <wsman:Selector Name=\"ShellId\">" ++
  shellId ++
  "</wsman:Selector>\n    </wsman:SelectorSet>\n  </s:Header>\n  <s:Body />\n</s:Envelope>"

/-- One HTTP response of the (scripted) server: status code, optional
`WWW-Authenticate` header value, and the xml2js parse outcome of the
body text (the XML parser is an external library, so its result on the
body is an input of the model). -/
structure HttpResponse where
  statusCode : Nat
  wwwAuthenticate : Option String
  body : Except String JsVal

/-- Terminal outcome of one `sendWinRMRequest` exchange.  `pending`
means the negotiation loop was still running when the fuel ran out — the
promise has neither resolved nor rejected. -/
inductive SendResult : Type where
  | ok (v : JsVal)
  | authError (msg : String)
  | transportError (code : Nat)
  | parseError (msg : String)
  | pending

/-- Outcome of a `sendWinRMRequest` call together with its observable
trace: every `(envelope, token)` pair actually POSTed, and the number of
challenge-driven Kerberos steps performed. -/
structure SendOutcome where
  result : SendResult
  requests : List (String × String)
  kerbSteps : Nat

/-- The `Negotiate ` scheme of the `WWW-Authenticate` header. -/
def negotiateScheme : String := "Negotiate "

/-- Challenge extraction from the `WWW-Authenticate` header, from the
source: the header must be present and start with `Negotiate `; the
challenge is the rest (`substring('Negotiate '.length)`). -/
def negotiateChallenge : Option String → Option String
  | none => none
  | some h =>
      if negotiateScheme.data.isPrefixOf h.data then
        some (String.mk (h.data.drop negotiateScheme.data.length))
      else none

/-- `sendWinRMRequest`, from the source: POST the envelope with
`Authorization: Negotiate <token>`; on 401 with a usable challenge do a
Kerberos step and recurse with the same envelope and the new token; on
401 without one reject (`AuthenticationError`); on other non-2xx reject
with the status; otherwise parse the body.  `server n` is the response
to the n-th POST of this exchange; the recursion is uncapped in the
source, so it runs on explicit fuel here. -/
def sendWinRMRequest (kstep : String → String) (server : Nat → HttpResponse) :
    Nat → Nat → String → String → SendOutcome
  | 0, _, _, _ => ⟨SendResult.pending, [], 0⟩
  | fuel + 1, attempt, envelope, token =>
    let r := server attempt
    if r.statusCode = 401 then
      match negotiateChallenge r.wwwAuthenticate with
      | some challenge =>
          let rest := sendWinRMRequest kstep server fuel (attempt + 1) envelope (kstep challenge)
          ⟨rest.result, (envelope, token) :: rest.requests, rest.kerbSteps + 1⟩
      | none =>
          ⟨SendResult.authError "401 Unauthorized, but no Negotiate challenge found.",
           [(envelope, token)], 0⟩
    else if r.statusCode ≠ 0 ∧ (r.statusCode < 200 ∨ r.statusCode > 299) then
      ⟨SendResult.transportError r.statusCode, [(envelope, token)], 0⟩
    else
      match r.body with
      | Except.ok v => ⟨SendResult.ok v, [(envelope, token)], 0⟩
      | Except.error e => ⟨SendResult.parseError e, [(envelope, token)], 0⟩

/-! Shell session state machine: the four public operations. -/

/-- The one piece of session state: the active `shellId` field
(`null` when no shell has been created). -/
structure ClientState where
  shellId : Option String

/-- The error taxonomy of the spec, carrying the source's message where
the source throws a plain `Error`: a classification of every rejection
path of the four operations. -/
inductive OpError : Type where
  | precondition (msg : String)
  | authentication (msg : String)
  | transport (code : Nat)
  | parse (msg : String)
  | protocol (msg : String)
  | pending

/-- What one public operation produced: the returned/thrown value, the
state of the client afterwards, and the observable effects (number of
HTTP requests POSTed, number of Kerberos steps performed, the initial
`step('')` included). -/
structure OpResult (α : Type) where
  out : Except OpError α
  state : ClientState
  httpRequests : Nat
  kerbSteps : Nat

/-- External collaborators of one operation: outcome of
`getInitialKerberosToken` (`initializeClient` + `step('')`), the
challenge-step function of the Kerberos client, the scripted HTTP
server, the fuel bounding the uncapped 401 loop, and the
`generateUuid()` value used for the envelope. -/
structure Env where
  kerbInit : Except String String
  kstep : String → String
  server : Nat → HttpResponse
  fuel : Nat
  uuid : String

/-- `sendWinRMRequest` as invoked by an operation (attempt counter 0). -/
def opSend (env : Env) (envelope token : String) : SendOutcome :=
  sendWinRMRequest env.kstep env.server env.fuel 0 envelope token

/-- JavaScript truthiness of the stored `shellId` field (`null` and `''`
are falsy, so `if (!this.shellId)` fires on both). -/
def shellTruthy : Option String → Bool
  | none => false
  | some s => !s.isEmpty

/-- String view of an extracted identifier.  xml2js text nodes are
always strings, so on parser output the extracted value is a `.str`;
the remaining cases follow JavaScript string coercion (shallowly for
arrays, whose nested rendering cannot arise from xml2js). -/
def strOf : Option JsVal → String
  | some (JsVal.str s) => s
  | some JsVal.undef => "undefined"
  | some (JsVal.obj _) => "[object Object]"
  | some (JsVal.arr _) => ""
  | none => "null"

/-- Rejection mapped from a non-`ok` send result, classified by the
spec's taxonomy (the source throws plain `Error`s with these data). -/
def sendFailure : SendResult → OpError
  | SendResult.ok _ => OpError.protocol ""
  | SendResult.authError m => OpError.authentication m
  | SendResult.transportError code => OpError.transport code
  | SendResult.parseError m => OpError.parse m
  | SendResult.pending => OpError.pending

/-- The network path of `createShell`: build the envelope, get the
initial token, send, extract the `shellId`; store it only when truthy. -/
def createShellFetch (cfg : ClientConfig) (st : ClientState) (env : Env) : OpResult String :=
  match env.kerbInit with
  | Except.error e => ⟨Except.error (OpError.authentication e), st, 0, 1⟩
  | Except.ok token =>
    let so := opSend env (buildCreateShellEnvelope cfg env.uuid) token
    match so.result with
    | SendResult.ok v =>
        let r := extractShellId v
        if truthy r then
          ⟨Except.ok (strOf r), ⟨some (strOf r)⟩, so.requests.length, so.kerbSteps + 1⟩
        else
          ⟨Except.error (OpError.protocol "Failed to parse shellId from CreateShell response."),
           st, so.requests.length, so.kerbSteps + 1⟩
    | res => ⟨Except.error (sendFailure res), st, so.requests.length, so.kerbSteps + 1⟩

/-- `createShell`, from the source: `if (this.shellId) return this.shellId;`
(JavaScript truthiness, so an empty stored identifier would not
short-circuit), otherwise the network path. -/
def createShell (cfg : ClientConfig) (st : ClientState) (env : Env) : OpResult String :=
  match st.shellId with
  | some sid => if sid.isEmpty then createShellFetch cfg st env else ⟨Except.ok sid, st, 0, 0⟩
  | none => createShellFetch cfg st env

/-- `executeCommand`, from the source: fail fast without any request when
`!this.shellId`; otherwise build the envelope, get a token, send, and
extract the `commandId` (its absence is a protocol failure). -/
def executeCommand (cfg : ClientConfig) (st : ClientState) (env : Env) (command : String) :
    OpResult String :=
  match st.shellId with
  | none => ⟨Except.error (OpError.precondition "No shellId. Call createShell() first."), st, 0, 0⟩
  | some sid =>
    if sid.isEmpty then
      ⟨Except.error (OpError.precondition "No shellId. Call createShell() first."), st, 0, 0⟩
    else
      match env.kerbInit with
      | Except.error e => ⟨Except.error (OpError.authentication e), st, 0, 1⟩
      | Except.ok token =>
        let so := opSend env (buildExecuteCommandEnvelope cfg env.uuid sid command) token
        match so.result with
        | SendResult.ok v =>
            let r := extractCommandId v
            if truthy r then
              ⟨Except.ok (strOf r), st, so.requests.length, so.kerbSteps + 1⟩
            else
              ⟨Except.error
                 (OpError.protocol "Failed to parse commandId from ExecuteCommand response."),
               st, so.requests.length, so.kerbSteps + 1⟩
        | res => ⟨Except.error (sendFailure res), st, so.requests.length, so.kerbSteps + 1⟩

/-- `receiveOutput`, from the source: fail fast without any request when
`!this.shellId`; otherwise send the Receive envelope and return
`extractCommandOutput` of the parsed response (which never rejects). -/
def receiveOutput (cfg : ClientConfig) (st : ClientState) (env : Env) (commandId : String) :
    OpResult String :=
  match st.shellId with
  | none => ⟨Except.error (OpError.precondition "No shellId. Call createShell() first."), st, 0, 0⟩
  | some sid =>
    if sid.isEmpty then
      ⟨Except.error (OpError.precondition "No shellId. Call createShell() first."), st, 0, 0⟩
    else
      match env.kerbInit with
      | Except.error e => ⟨Except.error (OpError.authentication e), st, 0, 1⟩
      | Except.ok token =>
        let so := opSend env (buildReceiveEnvelope cfg env.uuid sid commandId) token
        match so.result with
        | SendResult.ok v =>
            ⟨Except.ok (extractCommandOutput v), st, so.requests.length, so.kerbSteps + 1⟩
        | res => ⟨Except.error (sendFailure res), st, so.requests.length, so.kerbSteps + 1⟩

/-- `deleteShell`, from the source: a silent no-op when `!this.shellId`;
otherwise send the Delete envelope and clear the stored identifier only
after the send succeeds (a rejection propagates before the assignment). -/
def deleteShell (cfg : ClientConfig) (st : ClientState) (env : Env) : OpResult Unit :=
  match st.shellId with
  | none => ⟨Except.ok (), st, 0, 0⟩
  | some sid =>
    if sid.isEmpty then ⟨Except.ok (), st, 0, 0⟩
    else
      match env.kerbInit with
      | Except.error e => ⟨Except.error (OpError.authentication e), st, 0, 1⟩
      | Except.ok token =>
        let so := opSend env (buildDeleteShellEnvelope cfg env.uuid sid) token
        match so.result with
        | SendResult.ok _ => ⟨Except.ok (), ⟨none⟩, so.requests.length, so.kerbSteps + 1⟩
        | res => ⟨Except.error (sendFailure res), st, so.requests.length, so.kerbSteps + 1⟩

/-! Concrete fixtures and response constructors used by the theorems. -/

/-- A well-formed xml2js `Stream` element node: text content under `_`. -/
def mkStream (payload : String) : JsVal :=
  JsVal.obj [("_", JsVal.str payload)]

/-- A well-formed xml2js parse of a Receive response whose
`rsp:ReceiveResponse` holds the given base64 `Stream` payloads in
document order. -/
def mkReceiveResponse (payloads : List String) : JsVal :=
  JsVal.obj [("s:Envelope", JsVal.obj [("s:Body", JsVal.arr [JsVal.obj
    [("rsp:ReceiveResponse", JsVal.arr [JsVal.obj
      [("rsp:Stream", JsVal.arr (payloads.map mkStream))]])]])])]

/-- A well-formed xml2js parse of a CreateShell response carrying the
given `ShellId` text. -/
def mkCreateShellResponse (sid : String) : JsVal :=
  JsVal.obj [("s:Envelope", JsVal.obj [("s:Body", JsVal.arr [JsVal.obj
    [("rsp:Shell", JsVal.arr [JsVal.obj
      [("rsp:ShellId", JsVal.arr [JsVal.str sid])]])]])])]

/-- Concatenation of a list of strings in order. -/
def concatAll : List String → String
  | [] => ""
  | s :: rest => s ++ concatAll rest

/-- A fixed configuration for concrete evaluations. -/
def cfg0 : ClientConfig :=
  ⟨"winrm.example.com", 5985, "HTTP/winrm.example.com", false, "/wsman", 60000⟩

/-- A server that always answers 401 with a usable Negotiate challenge. -/
def srv401 : Nat → HttpResponse :=
  fun _ => ⟨401, some (negotiateScheme ++ "x"), Except.ok JsVal.undef⟩

/-- A server that always answers 401 with no `WWW-Authenticate` header. -/
def srv401Bare : Nat → HttpResponse :=
  fun _ => ⟨401, none, Except.ok JsVal.undef⟩

/-- A server answering 200 with the given parsed body. -/
def srv200 (v : JsVal) : Nat → HttpResponse :=
  fun _ => ⟨200, none, Except.ok v⟩

/-- An environment whose single exchange succeeds with the given body. -/
def envOk (v : JsVal) : Env :=
  ⟨Except.ok "tok", id, srv200 v, 3, "u"⟩

/-! Theorems. -/

theorem replaceChar_append (c : Char) (rep : List Char) (a b : List Char) :
    replaceChar c rep (a ++ b) = replaceChar c rep a ++ replaceChar c rep b := by
  induction a with
  | nil => rfl
  | cons x xs ih => simp [replaceChar, ih, List.append_assoc]

theorem escapeXmlL_split (x : Char) (xs : List Char) :
    escapeXmlL (x :: xs) = escapeXmlL [x] ++ escapeXmlL xs := by
  show escapeXmlL ([x] ++ xs) = escapeXmlL [x] ++ escapeXmlL xs
  unfold escapeXmlL
  rw [replaceChar_append, replaceChar_append, replaceChar_append, replaceChar_append,
    replaceChar_append]

theorem escapeXmlL_singleton (x : Char) : escapeXmlL [x] = escChar x := by
  by_cases h1 : x = ampC
  · subst h1; decide
  by_cases h2 : x = ltC
  · subst h2; decide
  by_cases h3 : x = gtC
  · subst h3; decide
  by_cases h4 : x = quotC
  · subst h4; decide
  by_cases h5 : x = aposC
  · subst h5; decide
  simp [escapeXmlL, escChar, replaceChar, h1, h2, h3, h4, h5]

theorem escapeXmlL_cons (x : Char) (xs : List Char) :
    escapeXmlL (x :: xs) = escChar x ++ escapeXmlL xs := by
  rw [escapeXmlL_split, escapeXmlL_singleton]

theorem isPrefixOf_append_self (l r : List Char) : l.isPrefixOf (l ++ r) = true := by
  rw [List.isPrefixOf_iff_prefix]
  exact List.prefix_append l r

theorem unescape_escChar (x : Char) (t : List Char) :
    unescapeXmlL (escChar x ++ t) = x :: unescapeXmlL t := by
  by_cases h1 : x = ampC
  · subst h1
    show unescapeXmlL (ampC :: (ampTailE ++ t)) = ampC :: unescapeXmlL t
    rw [unescapeXmlL, if_pos rfl, if_pos (isPrefixOf_append_self ampTailE t)]
    rw [show (ampTailE ++ t).drop 4 = t from List.drop_left ampTailE t]
  by_cases h2 : x = ltC
  · subst h2
    show unescapeXmlL (ampC :: (ltTailE ++ t)) = ltC :: unescapeXmlL t
    rw [unescapeXmlL, if_pos rfl,
      if_neg (by simp [ampTailE, ltTailE, List.isPrefixOf]),
      if_pos (isPrefixOf_append_self ltTailE t)]
    rw [show (ltTailE ++ t).drop 3 = t from List.drop_left ltTailE t]
  by_cases h3 : x = gtC
  · subst h3
    show unescapeXmlL (ampC :: (gtTailE ++ t)) = gtC :: unescapeXmlL t
    rw [unescapeXmlL, if_pos rfl,
      if_neg (by simp [ampTailE, gtTailE, List.isPrefixOf]),
      if_neg (by simp [ltTailE, gtTailE, List.isPrefixOf]),
      if_pos (isPrefixOf_append_self gtTailE t)]
    rw [show (gtTailE ++ t).drop 3 = t from List.drop_left gtTailE t]
  by_cases h4 : x = quotC
  · subst h4
    show unescapeXmlL (ampC :: (quotTailE ++ t)) = quotC :: unescapeXmlL t
    rw [unescapeXmlL, if_pos rfl,
      if_neg (by simp [ampTailE, quotTailE, List.isPrefixOf]),
      if_neg (by simp [ltTailE, quotTailE, List.isPrefixOf]),
      if_neg (by simp [gtTailE, quotTailE, List.isPrefixOf]),
      if_pos (isPrefixOf_append_self quotTailE t)]
    rw [show (quotTailE ++ t).drop 5 = t from List.drop_left quotTailE t]
  by_cases h5 : x = aposC
  · subst h5
    show unescapeXmlL (ampC :: (aposTailE ++ t)) = aposC :: unescapeXmlL t
    rw [unescapeXmlL, if_pos rfl,
      if_neg (by simp [ampTailE, aposTailE, List.isPrefixOf]),
      if_neg (by simp [ltTailE, aposTailE, List.isPrefixOf]),
      if_neg (by simp [gtTailE, aposTailE, List.isPrefixOf]),
      if_neg (by simp [quotTailE, aposTailE, List.isPrefixOf]),
      if_pos (isPrefixOf_append_self aposTailE t)]
    rw [show (aposTailE ++ t).drop 5 = t from List.drop_left aposTailE t]
  have hx : escChar x = [x] := by simp [escChar, h1, h2, h3, h4, h5]
  rw [hx]
  show unescapeXmlL (x :: t) = x :: unescapeXmlL t
  rw [unescapeXmlL, if_neg h1]

theorem unescape_escape_list (l : List Char) : unescapeXmlL (escapeXmlL l) = l := by
  induction l with
  | nil => rw [show escapeXmlL [] = ([] : List Char) from rfl, unescapeXmlL]
  | cons x xs ih => rw [escapeXmlL_cons, unescape_escChar, ih]

theorem wellEscaped_escChar (x : Char) (t : List Char) :
    wellEscaped (escChar x ++ t) = wellEscaped t := by
  by_cases h1 : x = ampC
  · subst h1
    show wellEscaped (ampC :: (ampTailE ++ t)) = wellEscaped t
    rw [wellEscaped, if_neg (by decide), if_pos rfl,
      if_pos (isPrefixOf_append_self ampTailE t)]
    rw [show (ampTailE ++ t).drop 4 = t from List.drop_left ampTailE t]
  by_cases h2 : x = ltC
  · subst h2
    show wellEscaped (ampC :: (ltTailE ++ t)) = wellEscaped t
    rw [wellEscaped, if_neg (by decide), if_pos rfl,
      if_neg (by simp [ampTailE, ltTailE, List.isPrefixOf]),
      if_pos (isPrefixOf_append_self ltTailE t)]
    rw [show (ltTailE ++ t).drop 3 = t from List.drop_left ltTailE t]
  by_cases h3 : x = gtC
  · subst h3
    show wellEscaped (ampC :: (gtTailE ++ t)) = wellEscaped t
    rw [wellEscaped, if_neg (by decide), if_pos rfl,
      if_neg (by simp [ampTailE, gtTailE, List.isPrefixOf]),
      if_neg (by simp [ltTailE, gtTailE, List.isPrefixOf]),
      if_pos (isPrefixOf_append_self gtTailE t)]
    rw [show (gtTailE ++ t).drop 3 = t from List.drop_left gtTailE t]
  by_cases h4 : x = quotC
  · subst h4
    show wellEscaped (ampC :: (quotTailE ++ t)) = wellEscaped t
    rw [wellEscaped, if_neg (by decide), if_pos rfl,
      if_neg (by simp [ampTailE, quotTailE, List.isPrefixOf]),
      if_neg (by simp [ltTailE, quotTailE, List.isPrefixOf]),
      if_neg (by simp [gtTailE, quotTailE, List.isPrefixOf]),
      if_pos (isPrefixOf_append_self quotTailE t)]
    rw [show (quotTailE ++ t).drop 5 = t from List.drop_left quotTailE t]
  by_cases h5 : x = aposC
  · subst h5
    show wellEscaped (ampC :: (aposTailE ++ t)) = wellEscaped t
    rw [wellEscaped, if_neg (by decide), if_pos rfl,
      if_neg (by simp [ampTailE, aposTailE, List.isPrefixOf]),
      if_neg (by simp [ltTailE, aposTailE, List.isPrefixOf]),
      if_neg (by simp [gtTailE, aposTailE, List.isPrefixOf]),
      if_neg (by simp [quotTailE, aposTailE, List.isPrefixOf]),
      if_pos (isPrefixOf_append_self aposTailE t)]
    rw [show (aposTailE ++ t).drop 5 = t from List.drop_left aposTailE t]
  have hx : escChar x = [x] := by simp [escChar, h1, h2, h3, h4, h5]
  rw [hx]
  show wellEscaped (x :: t) = wellEscaped t
  rw [wellEscaped, if_neg (by simp [h2, h3, h4, h5]), if_neg h1]

theorem wellEscaped_escape_list (l : List Char) : wellEscaped (escapeXmlL l) = true := by
  induction l with
  | nil => rw [show escapeXmlL [] = ([] : List Char) from rfl, wellEscaped]
  | cons x xs ih => rw [escapeXmlL_cons, wellEscaped_escChar, ih]

/-- C4: for every command string `c`, the ExecuteCommand body contains
`c` only in its XML-escaped form — the body decomposes around
`escapeXml c`, whose characters contain no raw `<`, `>`, `"` or
apostrophe and whose every `&` opens one of the five predefined
entities — and XML entity decoding of the escaped form yields `c`
unchanged (escape/unescape round-trip, for all strings). -/
theorem buildExecuteCommand_escapes_and_roundTrips (cfg : ClientConfig)
    (uuid sid c : String) :
    buildExecuteCommandEnvelope cfg uuid sid c =
      execEnvelopeHead cfg uuid sid ++ escapeXml c ++ execEnvelopeTail ∧
    wellEscaped (escapeXml c).data = true ∧
    unescapeXml (escapeXml c) = c := by
  refine ⟨rfl, ?_, ?_⟩
  · exact wellEscaped_escape_list c.data
  · show String.mk (unescapeXmlL (String.mk (escapeXmlL c.data)).data) = c
    rw [show (String.mk (escapeXmlL c.data)).data = escapeXmlL c.data from rfl,
      unescape_escape_list]

/-- C2: while the session is open (a non-empty `shellId` is stored),
`createShell` returns the stored identifier, leaves the state unchanged
and issues zero HTTP requests and zero Kerberos steps; called twice in
sequence both calls return the same identifier. -/
theorem createShell_idempotent_when_open (cfg : ClientConfig) (st : ClientState)
    (env env2 : Env) (sid : String)
    (h : st.shellId = some sid) (hne : sid.isEmpty = false) :
    createShell cfg st env = ⟨Except.ok sid, st, 0, 0⟩ ∧
    createShell cfg (createShell cfg st env).state env2 = ⟨Except.ok sid, st, 0, 0⟩ := by
  have h1 : createShell cfg st env = ⟨Except.ok sid, st, 0, 0⟩ := by
    unfold createShell
    rw [h]
    simp [hne]
  refine ⟨h1, ?_⟩
  rw [h1]
  unfold createShell
  rw [h]
  simp [hne]

/-- Witness for C2 at a concrete open session. -/
theorem createShell_idempotent_when_open_witness :
    createShell cfg0 ⟨some "sh-1"⟩ (envOk JsVal.undef) = ⟨Except.ok "sh-1", ⟨some "sh-1"⟩, 0, 0⟩ ∧
    createShell cfg0 (createShell cfg0 ⟨some "sh-1"⟩ (envOk JsVal.undef)).state (envOk JsVal.undef) =
      ⟨Except.ok "sh-1", ⟨some "sh-1"⟩, 0, 0⟩ :=
  createShell_idempotent_when_open cfg0 ⟨some "sh-1"⟩ (envOk JsVal.undef) (envOk JsVal.undef)
    "sh-1" rfl rfl

/-- C3: on an unopened session (`shellId` absent), `executeCommand` and
`receiveOutput` fail immediately with the precondition error and issue
zero HTTP requests and zero Kerberos steps. -/
theorem executeReceive_precondition_when_unopened (cfg : ClientConfig) (st : ClientState)
    (env : Env) (command commandId : String) (h : st.shellId = none) :
    executeCommand cfg st env command =
      ⟨Except.error (OpError.precondition "No shellId. Call createShell() first."), st, 0, 0⟩ ∧
    receiveOutput cfg st env commandId =
      ⟨Except.error (OpError.precondition "No shellId. Call createShell() first."), st, 0, 0⟩ := by
  constructor
  · unfold executeCommand
    rw [h]
  · unfold receiveOutput
    rw [h]

/-- Witness for C3 at a concrete unopened session. -/
theorem executeReceive_precondition_when_unopened_witness :
    executeCommand cfg0 ⟨none⟩ (envOk JsVal.undef) "dir" =
      ⟨Except.error (OpError.precondition "No shellId. Call createShell() first."),
       ⟨none⟩, 0, 0⟩ ∧
    receiveOutput cfg0 ⟨none⟩ (envOk JsVal.undef) "cid" =
      ⟨Except.error (OpError.precondition "No shellId. Call createShell() first."),
       ⟨none⟩, 0, 0⟩ :=
  executeReceive_precondition_when_unopened cfg0 ⟨none⟩ (envOk JsVal.undef) "dir" "cid" rfl

/-- C8: `deleteShell` on an unopened session is a no-op success with no
network traffic; on an open session whose Delete exchange succeeds it
clears the stored identifier, returning the session to unopened. -/
theorem deleteShell_noop_and_clears (cfg : ClientConfig) (st st2 : ClientState) (env : Env)
    (sid token : String) (v : JsVal)
    (h1 : st.shellId = none)
    (h2 : st2.shellId = some sid) (h3 : sid.isEmpty = false)
    (h4 : env.kerbInit = Except.ok token)
    (h5 : (opSend env (buildDeleteShellEnvelope cfg env.uuid sid) token).result =
      SendResult.ok v) :
    deleteShell cfg st env = ⟨Except.ok (), st, 0, 0⟩ ∧
    (deleteShell cfg st2 env).out = Except.ok () ∧
    (deleteShell cfg st2 env).state.shellId = none := by
  have ha : deleteShell cfg st env = ⟨Except.ok (), st, 0, 0⟩ := by
    unfold deleteShell
    rw [h1]
  have hni : ¬ (sid.isEmpty = true) := by rw [h3]; simp
  have hb : deleteShell cfg st2 env =
      ⟨Except.ok (), ⟨none⟩,
       (opSend env (buildDeleteShellEnvelope cfg env.uuid sid) token).requests.length,
       (opSend env (buildDeleteShellEnvelope cfg env.uuid sid) token).kerbSteps + 1⟩ := by
    unfold deleteShell
    rw [h2]
    dsimp only
    rw [if_neg hni, h4]
    dsimp only
    rw [h5]
  exact ⟨ha, by rw [hb], by rw [hb]⟩

/-- Witness for C8 at concrete sessions and a succeeding Delete. -/
theorem deleteShell_noop_and_clears_witness :
    deleteShell cfg0 ⟨none⟩ (envOk JsVal.undef) = ⟨Except.ok (), ⟨none⟩, 0, 0⟩ ∧
    (deleteShell cfg0 ⟨some "sh-1"⟩ (envOk JsVal.undef)).out = Except.ok () ∧
    (deleteShell cfg0 ⟨some "sh-1"⟩ (envOk JsVal.undef)).state.shellId = none :=
  deleteShell_noop_and_clears cfg0 ⟨none⟩ ⟨some "sh-1"⟩ (envOk JsVal.undef) "sh-1" "tok"
    JsVal.undef rfl rfl rfl rfl rfl

/-- C10: `executeCommand` and `receiveOutput` return the client state
unchanged in every branch, success or failure; `createShell` changes the
state only when it succeeds (storing the returned identifier) and
`deleteShell` only when it succeeds (clearing the identifier), so no
failing operation modifies the stored `shellId`. -/
theorem shellId_frame (cfg : ClientConfig) (st : ClientState) (env : Env)
    (command commandId : String) :
    (executeCommand cfg st env command).state = st ∧
    (receiveOutput cfg st env commandId).state = st ∧
    ((createShell cfg st env).state = st ∨
      ∃ s, (createShell cfg st env).out = Except.ok s ∧
        (createShell cfg st env).state.shellId = some s) ∧
    ((deleteShell cfg st env).state = st ∨ (deleteShell cfg st env).out = Except.ok ()) := by
  refine ⟨?_, ?_, ?_, ?_⟩
  · unfold executeCommand
    split
    · rfl
    · split
      · rfl
      · split
        · rfl
        · dsimp only
          split
          · split <;> rfl
          · rfl
  · unfold receiveOutput
    split
    · rfl
    · split
      · rfl
      · split
        · rfl
        · dsimp only
          split <;> rfl
  · unfold createShell
    split
    · split
      · unfold createShellFetch
        split
        · exact Or.inl rfl
        · dsimp only
          split
          · split
            · exact Or.inr ⟨_, rfl, rfl⟩
            · exact Or.inl rfl
          · exact Or.inl rfl
      · exact Or.inl rfl
    · unfold createShellFetch
      split
      · exact Or.inl rfl
      · dsimp only
        split
        · split
          · exact Or.inr ⟨_, rfl, rfl⟩
          · exact Or.inl rfl
        · exact Or.inl rfl
  · unfold deleteShell
    split
    · exact Or.inr rfl
    · split
      · exact Or.inr rfl
      · split
        · exact Or.inl rfl
        · dsimp only
          split
          · exact Or.inr rfl
          · exact Or.inl rfl

theorem negotiateChallenge_scheme (ch : String) :
    negotiateChallenge (some (negotiateScheme ++ ch)) = some ch := by
  unfold negotiateChallenge
  dsimp only
  rw [String.data_append]
  rw [if_pos (isPrefixOf_append_self negotiateScheme.data ch.data)]
  rw [List.drop_left]

/-- C1: on a 401 whose `WWW-Authenticate` header is `Negotiate <ch>`,
one exchange step extracts `ch`, performs one more Kerberos step
(`kstep ch`), and re-POSTs the identical SOAP envelope with the new
token; on a 401 with no usable Negotiate challenge the exchange fails
with the authentication error after exactly that one request — no
further HTTP request is made. -/
theorem sendWinRMRequest_401_behaviour (kstep : String → String)
    (server : Nat → HttpResponse) (fuel attempt : Nat) (envelope token ch : String)
    (h401 : (server attempt).statusCode = 401)
    (hch : (server attempt).wwwAuthenticate = some (negotiateScheme ++ ch)) :
    sendWinRMRequest kstep server (fuel + 1) attempt envelope token =
      ⟨(sendWinRMRequest kstep server fuel (attempt + 1) envelope (kstep ch)).result,
       (envelope, token) ::
         (sendWinRMRequest kstep server fuel (attempt + 1) envelope (kstep ch)).requests,
       (sendWinRMRequest kstep server fuel (attempt + 1) envelope (kstep ch)).kerbSteps + 1⟩ ∧
    (∀ server2 : Nat → HttpResponse, (server2 attempt).statusCode = 401 →
      negotiateChallenge (server2 attempt).wwwAuthenticate = none →
      sendWinRMRequest kstep server2 (fuel + 1) attempt envelope token =
        ⟨SendResult.authError "401 Unauthorized, but no Negotiate challenge found.",
         [(envelope, token)], 0⟩) := by
  constructor
  · rw [sendWinRMRequest]
    dsimp only
    rw [if_pos h401, hch, negotiateChallenge_scheme]
  · intro server2 h401b hnone
    rw [sendWinRMRequest]
    dsimp only
    rw [if_pos h401b, hnone]

/-- Witness for C1: a challenging server retried with the stepped token
and identical envelope, and a bare 401 answered by a single request and
the authentication error. -/
theorem sendWinRMRequest_401_behaviour_witness :
    sendWinRMRequest id srv401 1 0 "env" "tok" =
      ⟨(sendWinRMRequest id srv401 0 1 "env" (id "x")).result,
       ("env", "tok") :: (sendWinRMRequest id srv401 0 1 "env" (id "x")).requests,
       (sendWinRMRequest id srv401 0 1 "env" (id "x")).kerbSteps + 1⟩ ∧
    sendWinRMRequest id srv401Bare 1 0 "env" "tok" =
      ⟨SendResult.authError "401 Unauthorized, but no Negotiate challenge found.",
       [("env", "tok")], 0⟩ := by
  have h := sendWinRMRequest_401_behaviour id srv401 0 0 "env" "tok" "x" rfl rfl
  exact ⟨h.1, h.2 srv401Bare rfl rfl⟩

/-- C9: the negotiation loop enforces no retry budget: against a server
that answers every attempt with 401 plus a usable Negotiate challenge,
the exchange never terminates with a result or an error — for every
finite fuel it is still pending. -/
theorem sendWinRMRequest_no_retry_cap (kstep : String → String) (server : Nat → HttpResponse)
    (hs : ∀ n, (server n).statusCode = 401 ∧
      ∃ ch, negotiateChallenge (server n).wwwAuthenticate = some ch) :
    ∀ fuel attempt envelope token,
      (sendWinRMRequest kstep server fuel attempt envelope token).result =
        SendResult.pending := by
  intro fuel
  induction fuel with
  | zero => intro attempt envelope token; rfl
  | succ n ih =>
    intro attempt envelope token
    obtain ⟨h401, ch, hch⟩ := hs attempt
    rw [sendWinRMRequest]
    dsimp only
    rw [if_pos h401, hch]
    exact ih (attempt + 1) envelope (kstep ch)

/-- Witness for C9 at an always-challenging server and a sample fuel. -/
theorem sendWinRMRequest_no_retry_cap_witness :
    (sendWinRMRequest id srv401 5 0 "env" "tok").result = SendResult.pending :=
  sendWinRMRequest_no_retry_cap id srv401 (fun _ => ⟨rfl, "x", rfl⟩) 5 0 "env" "tok"

/-- C6: when the CreateShell exchange succeeds but the parsed response
has no truthy `ShellId` under the expected path (absent element,
`undefined`, or empty text), `createShell` fails with the protocol
error and the session stays unopened — it neither crashes nor returns
any identifier, empty or otherwise. -/
theorem createShell_shellId_not_found (cfg : ClientConfig) (st : ClientState) (env : Env)
    (token : String) (v : JsVal)
    (h0 : st.shellId = none)
    (h1 : env.kerbInit = Except.ok token)
    (h2 : (opSend env (buildCreateShellEnvelope cfg env.uuid) token).result = SendResult.ok v)
    (h3 : truthy (extractShellId v) = false) :
    (createShell cfg st env).out =
      Except.error (OpError.protocol "Failed to parse shellId from CreateShell response.") ∧
    (createShell cfg st env).state = st := by
  have hcs : createShell cfg st env =
      ⟨Except.error (OpError.protocol "Failed to parse shellId from CreateShell response."), st,
       (opSend env (buildCreateShellEnvelope cfg env.uuid) token).requests.length,
       (opSend env (buildCreateShellEnvelope cfg env.uuid) token).kerbSteps + 1⟩ := by
    unfold createShell
    rw [h0]
    dsimp only
    unfold createShellFetch
    rw [h1]
    dsimp only
    rw [h2]
    dsimp only
    rw [if_neg (by rw [h3]; simp)]
  exact ⟨by rw [hcs], by rw [hcs]⟩

/-- Witness for C6 at a concrete response missing the ShellId path. -/
theorem createShell_shellId_not_found_witness :
    (createShell cfg0 ⟨none⟩ (envOk (JsVal.obj []))).out =
      Except.error (OpError.protocol "Failed to parse shellId from CreateShell response.") ∧
    (createShell cfg0 ⟨none⟩ (envOk (JsVal.obj []))).state = ⟨none⟩ :=
  createShell_shellId_not_found cfg0 ⟨none⟩ (envOk (JsVal.obj [])) "tok" (JsVal.obj [])
    rfl rfl rfl rfl

theorem streamText_mkStream (p : String) :
    streamText (mkStream p) =
      if p.isEmpty = true then Except.ok none else Except.ok (some p) := rfl

theorem collectStreams_map_mkStream (ps : List String) (acc : String) :
    collectStreams (ps.map mkStream) acc =
      Except.ok (acc ++ concatAll (ps.map b64ToText)) := by
  induction ps generalizing acc with
  | nil =>
    show collectStreams [] acc = Except.ok (acc ++ concatAll [])
    rw [show concatAll [] = "" from rfl, String.append_empty]
    rfl
  | cons p rest ih =>
    show collectStreams (mkStream p :: rest.map mkStream) acc = _
    rw [show concatAll ((p :: rest).map b64ToText) =
      b64ToText p ++ concatAll (rest.map b64ToText) from rfl]
    by_cases hp : p.isEmpty = true
    · have hps : p = "" := (String.isEmpty_iff p).mp hp
      subst hps
      rw [show collectStreams (mkStream "" :: rest.map mkStream) acc =
        collectStreams (rest.map mkStream) acc from rfl]
      rw [ih acc]
      rw [show b64ToText "" = "" from rfl, String.empty_append]
    · have hstep : collectStreams (mkStream p :: rest.map mkStream) acc =
          collectStreams (rest.map mkStream) (acc ++ b64ToText p) := by
        rw [collectStreams, streamText_mkStream, if_neg hp]
      rw [hstep, ih, String.append_assoc]

theorem extractCommandOutput_mkReceive (ps : List String) :
    extractCommandOutput (mkReceiveResponse ps) = jsTrim (concatAll (ps.map b64ToText)) := by
  have h0 : extractCommandOutput (mkReceiveResponse ps) =
      (match collectStreams (ps.map mkStream) "" with
       | Except.ok out => jsTrim out
       | Except.error _ => "") := rfl
  rw [h0, collectStreams_map_mkStream, String.empty_append]

/-- C5 as written fails on the code: the source applies `.trim()`, which
removes leading as well as trailing whitespace; a single stream decoding
to `" x"` comes back as `"x"`, not the trailing-only-trimmed `" x"`. -/
theorem receive_output_not_trailing_only :
    extractCommandOutput (mkReceiveResponse ["IHg="]) = "x" ∧
    trimEndOnly (concatAll ((["IHg="] : List String).map b64ToText)) = " x" ∧
    ("x" : String) ≠ " x" := by
  refine ⟨rfl, rfl, by decide⟩

/-- C5 amended: for every well-formed Receive response the output is the
concatenation, in document order, of each `Stream` text individually
base64-decoded, with leading AND trailing whitespace trimmed
(`.trim()`); the two-stream example decodes to `"hello world"` and a
response with no streams yields the empty string. -/
theorem receive_output_concat_decode_trim (ps : List String) :
    extractCommandOutput (mkReceiveResponse ps) = jsTrim (concatAll (ps.map b64ToText)) ∧
    extractCommandOutput (mkReceiveResponse ["aGVsbG8=", "IHdvcmxk"]) = "hello world" ∧
    extractCommandOutput (mkReceiveResponse []) = "" := by
  refine ⟨extractCommandOutput_mkReceive ps, rfl, rfl⟩

/-- C7 as written fails on the code: a Receive response body that does
not conform to the expected `ReceiveResponse` shape is swallowed by
`extractCommandOutput`'s `catch`, so `receiveOutput` succeeds with the
empty string — exactly the same observable result as the valid
empty-streams "not ready yet" outcome, with no error surfaced. -/
theorem receiveOutput_swallows_malformed :
    (receiveOutput cfg0 ⟨some "sh-1"⟩ (envOk (JsVal.obj [])) "cid").out = Except.ok "" ∧
    (receiveOutput cfg0 ⟨some "sh-1"⟩ (envOk (mkReceiveResponse [])) "cid").out =
      Except.ok "" := by
  exact ⟨rfl, rfl⟩

/-- C7 amended: whenever the Receive exchange itself succeeds,
`receiveOutput` succeeds with `extractCommandOutput` of the body — it
never surfaces a protocol error for a malformed body, and the malformed
and empty-streams outcomes are both the empty string. -/
theorem receiveOutput_ok_is_extract (cfg : ClientConfig) (st : ClientState) (env : Env)
    (commandId sid token : String) (v : JsVal)
    (h0 : st.shellId = some sid) (h1 : sid.isEmpty = false)
    (h2 : env.kerbInit = Except.ok token)
    (h3 : (opSend env (buildReceiveEnvelope cfg env.uuid sid commandId) token).result =
      SendResult.ok v) :
    (receiveOutput cfg st env commandId).out = Except.ok (extractCommandOutput v) ∧
    extractCommandOutput (JsVal.obj []) = "" ∧
    extractCommandOutput (mkReceiveResponse []) = "" := by
  have hni : ¬ (sid.isEmpty = true) := by rw [h1]; simp
  have hro : receiveOutput cfg st env commandId =
      ⟨Except.ok (extractCommandOutput v), st,
       (opSend env (buildReceiveEnvelope cfg env.uuid sid commandId) token).requests.length,
       (opSend env (buildReceiveEnvelope cfg env.uuid sid commandId) token).kerbSteps + 1⟩ := by
    unfold receiveOutput
    rw [h0]
    dsimp only
    rw [if_neg hni, h2]
    dsimp only
    rw [h3]
  exact ⟨by rw [hro], rfl, rfl⟩

/-- Witness for the amended C7 at a concrete malformed body. -/
theorem receiveOutput_ok_is_extract_witness :
    (receiveOutput cfg0 ⟨some "sh-1"⟩ (envOk (JsVal.obj [])) "cid").out =
      Except.ok (extractCommandOutput (JsVal.obj [])) ∧
    extractCommandOutput (JsVal.obj []) = "" ∧
    extractCommandOutput (mkReceiveResponse []) = "" :=
  receiveOutput_ok_is_extract cfg0 ⟨some "sh-1"⟩ (envOk (JsVal.obj [])) "cid" "sh-1" "tok"
    (JsVal.obj []) rfl rfl rfl rfl
